import Mathlib

/-!
Verification development for the maximum-independent-set demo pipeline
(`original_program.py`): a fixed graph is built with networkx, handed to an
external sampler via `dnx.maximum_independent_set(G, sampler=sampler,
num_reads=10)`, the returned node set is printed, and a module-level block
computes two induced subgraphs and colors every node of the graph red
(selected) or blue (unselected).

The embedding below mirrors the source: a networkx graph is a node set, an
edge set, and a per-node attribute map (here just the `color` attribute);
the external sampler is an oracle parameter; calls to it are logged so that
invocation behaviour is provable.
-/

set_option autoImplicit false

namespace GraphMapping

/-- The value stored by the annotation loop in `G.nodes[node]['color']`:
`'red'` for selected nodes, `'blue'` for unselected ones. -/
inductive Color
  | red
  | blue
deriving DecidableEq

/-- A networkx graph as the program uses it: a node set, an edge set
(pairs as written in `add_edges_from`), and the per-node `color`
attribute map (`none` when the attribute has not been set). -/
@[ext] structure Graph where
  nodes : Finset ℕ
  edges : Finset (ℕ × ℕ)
  color : ℕ → Option Color

/-- `nx.Graph()` — the empty graph, no node attributes. -/
def emptyG : Graph := ⟨∅, ∅, fun _ => none⟩

/-- One step of `G.add_edges_from`: adding an edge also adds its two
endpoints as nodes (networkx semantics, line 52 of the source comment). -/
def addEdge (g : Graph) (e : ℕ × ℕ) : Graph :=
  { g with
    nodes := insert e.2 (insert e.1 g.nodes)
    edges := insert e g.edges }

/-- The edge list passed to `G.add_edges_from` in `create_graph`
(source lines 53-54). -/
def edge_list : List (ℕ × ℕ) :=
  [(1, 2), (1, 3), (2, 3), (3, 4), (3, 5), (4, 5), (4, 6), (5, 6), (6, 7)]

/-- `create_graph` (source lines 48-56): start from the empty graph and add
the fixed edge list; nodes are created implicitly from edge endpoints. -/
def create_graph : Graph := edge_list.foldl addEdge emptyG

/-- `G.subgraph(nbunch)` as networkx computes it: the induced subgraph on
`g.nodes ∩ nbunch`; nodes of `nbunch` absent from the graph are silently
ignored, and an edge survives iff both endpoints lie in the retained set. -/
def subgraph (g : Graph) (nbunch : Finset ℕ) : Graph :=
  { nodes := g.nodes ∩ nbunch
    edges := g.edges.filter fun e => e.1 ∈ g.nodes ∩ nbunch ∧ e.2 ∈ g.nodes ∩ nbunch
    color := fun n => if n ∈ g.nodes ∩ nbunch then g.color n else none }

/-- The color chosen on source line 95: `'red' if node in S else 'blue'`. -/
def node_color (s : Finset ℕ) (n : ℕ) : Color :=
  if n ∈ s then Color.red else Color.blue

/-- One assignment `G.nodes[node]['color'] = v`: the attribute map is
updated in place at `node`. -/
def set_color (c : ℕ → Option Color) (n : ℕ) (v : Color) : ℕ → Option Color :=
  fun m => if m = n then some v else c m

/-- One iteration of the loop on source lines 94-95: set the visited
node's `color` attribute. -/
def color_step (s : Finset ℕ) (n : ℕ) (c : ℕ → Option Color) : ℕ → Option Color :=
  set_color c n (node_color s n)

/-- Two loop iterations commute: each node's written value depends only on
that node, so the iteration order of `for node in G.nodes()` does not
affect the resulting attribute map. -/
instance color_step_comm (s : Finset ℕ) : LeftCommutative (color_step s) := by
  refine ⟨fun a b c => funext fun m => ?_⟩
  simp only [color_step, set_color]
  by_cases ha : m = a
  · by_cases hb : m = b
    · have hab : a = b := ha.symm.trans hb
      rw [if_pos ha, if_pos hb, hab]
    · rw [if_pos ha, if_neg hb, if_pos ha]
  · by_cases hb : m = b
    · rw [if_neg ha, if_pos hb, if_pos hb]
    · rw [if_neg ha, if_neg hb, if_neg hb, if_neg ha]

/-- The annotation step (source lines 93-95): iterate over `G.nodes()` and
set each node's `color` attribute in place. -/
def annotate (g : Graph) (s : Finset ℕ) : Graph :=
  { g with color := Multiset.foldr (color_step s) g.color g.nodes.val }

/-- The selected-label set of an annotated graph: nodes carrying the
`red` color attribute. -/
def selected_set (g : Graph) : Finset ℕ :=
  g.nodes.filter fun n => g.color n = some Color.red

/-- The unselected-label set of an annotated graph: nodes carrying the
`blue` color attribute. -/
def unselected_set (g : Graph) : Finset ℕ :=
  g.nodes.filter fun n => g.color n = some Color.blue

/-- The fixed sample count passed to the external capability on source
line 71: `num_reads=10`. -/
def num_reads : ℕ := 10

/-- A logged invocation of the external solving capability: the graph
description it received and the requested number of reads. -/
structure SolverCall where
  nodes : Finset ℕ
  edges : Finset (ℕ × ℕ)
  reads : ℕ
deriving DecidableEq

/-- The external sampler capability, abstracted as an oracle: it receives
the graph description and the sample count and returns a node set. -/
def Sampler : Type := Finset ℕ → Finset (ℕ × ℕ) → ℕ → Finset ℕ

/-- `solve_problem` (source lines 58-73): a single unconditional call
`dnx.maximum_independent_set(G, sampler=sampler, num_reads=10)` whose
answer is returned unchanged. The second component logs the invocations
of the external capability made by the call; the source performs no
validation of the graph before forwarding it. -/
def solve_problem (sampler : Sampler) (g : Graph) : Finset ℕ × List SolverCall :=
  (sampler g.nodes g.edges num_reads, [⟨g.nodes, g.edges, num_reads⟩])

/-- Everything the `__main__` block and the following module-level
partition block produce for one run. -/
structure RunResult where
  printed : ℕ
  solution : Finset ℕ
  calls : List SolverCall
  annotated : Graph
  subsetSel : Graph
  subsetUnsel : Graph

/-- The script pipeline (source lines 76-95): build the fixed graph, call
the solver gateway once, print the size of the returned set, compute the
two induced subgraphs `subset_1 = G.subgraph(S)` and
`subset_0 = G.subgraph(set(G.nodes()) - set(S))`, and annotate every node
of `G` with a color. Straight-line: no branching, no retry. -/
def run_main (sampler : Sampler) : RunResult :=
  let G := create_graph
  let p := solve_problem sampler G
  let S := p.1
  { printed := S.card
    solution := S
    calls := p.2
    annotated := annotate G S
    subsetSel := subgraph G S
    subsetUnsel := subgraph G (G.nodes \ S) }

/-- A sampler mock returning the independent set `{1, 4, 7}`. -/
def mock_147 : Sampler := fun _ _ _ => {1, 4, 7}

/-- A sampler mock returning the empty set. -/
def mock_empty : Sampler := fun _ _ _ => (∅ : Finset ℕ)

/-- The module-level Python names the execution of the file resolves:
the names bound by the import statements on source lines 16-28, the name
`Range1d` referenced on line 99, and the names `G` and `S` bound inside the
`__main__` guard (lines 78 and 82) and referenced by the module-level
block (lines 89-95). -/
inductive PyName
  | networkxMod
  | dwaveNetworkxMod
  | samplerCls
  | compositeCls
  | outputFileFn
  | showPlotFn
  | circleGlyph
  | hoverToolCls
  | multiLineGlyph
  | plotCls
  | edgesLinkedNodesPolicy
  | nodesLinkedEdgesPolicy
  | spectralPalette
  | fromNetworkxFn
  | columnDataSourceCls
  | range1dCls
  | mainG
  | mainS
deriving DecidableEq

/-- The names bound by the import statements on source lines 16-28
(`nx`, `dnx`, `DWaveSampler`, `EmbeddingComposite`, `output_file`, `show`,
`Circle`, `HoverTool`, `MultiLine`, `Plot`, `EdgesAndLinkedNodes`,
`NodesAndLinkedEdges`, `Spectral4`, `from_networkx`, `ColumnDataSource`).
`Range1d` is not among them. -/
def imported_names : List PyName :=
  [PyName.networkxMod, PyName.dwaveNetworkxMod, PyName.samplerCls,
   PyName.compositeCls, PyName.outputFileFn, PyName.showPlotFn,
   PyName.circleGlyph, PyName.hoverToolCls, PyName.multiLineGlyph,
   PyName.plotCls, PyName.edgesLinkedNodesPolicy, PyName.nodesLinkedEdgesPolicy,
   PyName.spectralPalette, PyName.fromNetworkxFn, PyName.columnDataSourceCls]

/-- A Python runtime error raised during module execution: referencing an
unbound name raises `NameError`. -/
inductive PyErr
  | nameError (n : PyName)
deriving DecidableEq

/-- What executing the module produces: the printed set size if the
`print` statements ran, the annotated graph if the annotation loop ran to
completion, and the error the execution halted with, if any. -/
structure ModuleRun where
  printed : Option ℕ
  annotated : Option Graph
  halted : Option PyErr

/-- Executing the whole file (source lines 16-135) with
`__name__ == "__main__"` equal to `isMain`. The guard body (lines 76-86)
binds `G` and `S` and prints only when `isMain` holds. The partition and
annotation block (lines 89-95) sits at module level and references `G` and
`S`: when those names are unbound, evaluating line 89 raises
`NameError` for `G`. When it succeeds, the visualization block follows
and line 99 references the name `Range1d`, which is resolved against the
imported names; an unbound name raises `NameError` there. -/
def run_module (isMain : Bool) (sampler : Sampler) : ModuleRun :=
  let mainVars : Option (Graph × Finset ℕ) :=
    if isMain then
      some (create_graph, (solve_problem sampler create_graph).1)
    else none
  let printed : Option ℕ := mainVars.map fun p => p.2.card
  match mainVars with
  | none =>
    { printed := printed, annotated := none
      halted := some (PyErr.nameError PyName.mainG) }
  | some (G, S) =>
    let g2 := annotate G S
    if PyName.range1dCls ∈ imported_names then
      { printed := printed, annotated := some g2, halted := none }
    else
      { printed := printed, annotated := some g2
        halted := some (PyErr.nameError PyName.range1dCls) }

/-! ## Basic facts about the annotation step -/

@[simp] theorem annotate_nodes (g : Graph) (s : Finset ℕ) :
    (annotate g s).nodes = g.nodes := rfl

@[simp] theorem annotate_edges (g : Graph) (s : Finset ℕ) :
    (annotate g s).edges = g.edges := rfl

theorem color_foldr_eq (s : Finset ℕ) (l : List ℕ) (c : ℕ → Option Color) (n : ℕ) :
    List.foldr (color_step s) c l n = if n ∈ l then some (node_color s n) else c n := by
  induction l with
  | nil => simp
  | cons m l ih =>
    simp only [List.foldr_cons, color_step, set_color]
    by_cases hm : n = m
    · subst hm; simp
    · simp [hm, ih]

theorem multiset_color_foldr_eq (s : Finset ℕ) (m : Multiset ℕ) (c : ℕ → Option Color)
    (n : ℕ) :
    Multiset.foldr (color_step s) c m n = if n ∈ m then some (node_color s n) else c n := by
  refine Quotient.inductionOn m fun l => ?_
  simpa using color_foldr_eq s l c n

theorem annotate_color (g : Graph) (s : Finset ℕ) (n : ℕ) :
    (annotate g s).color n =
      if n ∈ g.nodes then some (node_color s n) else g.color n := by
  show Multiset.foldr (color_step s) g.color g.nodes.val n = _
  rw [multiset_color_foldr_eq]
  simp [Finset.mem_val]

theorem selected_set_annotate (g : Graph) (s : Finset ℕ) :
    selected_set (annotate g s) = s ∩ g.nodes := by
  ext n
  simp only [selected_set, Finset.mem_filter, annotate_nodes, Finset.mem_inter,
    annotate_color, node_color]
  by_cases hn : n ∈ g.nodes <;> by_cases hs : n ∈ s <;> simp [hn, hs]

theorem unselected_set_annotate (g : Graph) (s : Finset ℕ) :
    unselected_set (annotate g s) = g.nodes \ s := by
  ext n
  simp only [unselected_set, Finset.mem_filter, annotate_nodes, Finset.mem_sdiff,
    annotate_color, node_color]
  by_cases hn : n ∈ g.nodes <;> by_cases hs : n ∈ s <;> simp [hn, hs]

/-! ## Claim theorems: graph builder -/

/-- Claim C4: the Graph Builder takes no inputs (it is a constant), cannot
fail, and deterministically returns the fixed graph with node set
`{1,...,7}` (7 nodes) and exactly the 9 undirected edges
`{(1,2),(1,3),(2,3),(3,4),(3,5),(4,5),(4,6),(5,6),(6,7)}`. -/
theorem create_graph_fixed :
    create_graph.nodes = ({1, 2, 3, 4, 5, 6, 7} : Finset ℕ) ∧
    create_graph.nodes.card = 7 ∧
    create_graph.edges =
      ({(1, 2), (1, 3), (2, 3), (3, 4), (3, 5), (4, 5), (4, 6), (5, 6), (6, 7)} :
        Finset (ℕ × ℕ)) ∧
    create_graph.edges.card = 9 := by
  refine ⟨by decide, by decide, by decide, by decide⟩

/-- Claim C6: for the graph returned by the Graph Builder, both endpoints
of every edge are members of the node set. -/
theorem create_graph_edges_in_nodes :
    ∀ e ∈ create_graph.edges, e.1 ∈ create_graph.nodes ∧ e.2 ∈ create_graph.nodes := by
  decide

/-- Witness for C6 at the concrete edge `(1, 2)`. -/
theorem create_graph_edges_in_nodes_witness :
    (1, 2) ∈ create_graph.edges ∧
      1 ∈ create_graph.nodes ∧ 2 ∈ create_graph.nodes :=
  ⟨by decide, create_graph_edges_in_nodes (1, 2) (by decide)⟩

/-! ## Claim theorems: partitioning -/

/-- Claim C1: for every graph `g` and solution `s`, the annotation labels
each node of `g.nodes` exactly once: the selected-label set equals
`s ∩ g.nodes`, the unselected-label set equals `g.nodes \ s`, the two are
disjoint and their union is exactly `g.nodes` — regardless of whether `s`
is an independent set. -/
theorem partition_label_sets (g : Graph) (s : Finset ℕ) :
    selected_set (annotate g s) = s ∩ g.nodes ∧
    unselected_set (annotate g s) = g.nodes \ s ∧
    selected_set (annotate g s) ∪ unselected_set (annotate g s) = g.nodes ∧
    Disjoint (selected_set (annotate g s)) (unselected_set (annotate g s)) := by
  refine ⟨selected_set_annotate g s, unselected_set_annotate g s, ?_, ?_⟩
  · rw [selected_set_annotate, unselected_set_annotate]
    ext n
    by_cases hn : n ∈ g.nodes <;> by_cases hs : n ∈ s <;>
      simp [hn, hs]
  · rw [selected_set_annotate, unselected_set_annotate, Finset.disjoint_left]
    intro n hns hnu
    rw [Finset.mem_inter] at hns
    rw [Finset.mem_sdiff] at hnu
    exact hnu.2 hns.1

/-- Counterexample to claim C2: with the built graph and the solution
`{1, 99}` — where `99` is not a node of the graph — the partition block
does not fail with `NodeOutOfRange`: it silently succeeds, the subgraph
computation drops the unknown node, and the annotation produces a full
labeling with selected set `{1}`. -/
theorem partition_oob_silent :
    (99 ∈ ({1, 99} : Finset ℕ) ∧ 99 ∉ create_graph.nodes) ∧
    (subgraph create_graph {1, 99}).nodes = ({1} : Finset ℕ) ∧
    selected_set (annotate create_graph {1, 99}) = ({1} : Finset ℕ) ∧
    unselected_set (annotate create_graph {1, 99}) =
      ({2, 3, 4, 5, 6, 7} : Finset ℕ) := by
  refine ⟨⟨by decide, by decide⟩, by decide, by decide, by decide⟩

/-- Claim C2 as amended: the partition block performs no membership check.
If the solution contains a node not present in `g.nodes`, it silently
succeeds: the subgraph computation keeps only `g.nodes ∩ s`, and the
annotation labels exactly the nodes of `g`, with selected set
`s ∩ g.nodes` and unselected set `g.nodes \ s`; no error is raised. -/
theorem partition_no_range_check (g : Graph) (s : Finset ℕ)
    (h : ¬ s ⊆ g.nodes) :
    (subgraph g s).nodes = g.nodes ∩ s ∧
    selected_set (annotate g s) = s ∩ g.nodes ∧
    unselected_set (annotate g s) = g.nodes \ s :=
  ⟨rfl, selected_set_annotate g s, unselected_set_annotate g s⟩

/-- Witness for the amended C2 at the built graph and solution `{1, 99}`. -/
theorem partition_no_range_check_witness :
    ¬ ({1, 99} : Finset ℕ) ⊆ create_graph.nodes ∧
    ((subgraph create_graph {1, 99}).nodes = create_graph.nodes ∩ {1, 99} ∧
      selected_set (annotate create_graph {1, 99}) = {1, 99} ∩ create_graph.nodes ∧
      unselected_set (annotate create_graph {1, 99}) = create_graph.nodes \ {1, 99}) :=
  ⟨by decide, partition_no_range_check create_graph {1, 99} (by decide)⟩

/-! ## Claim theorems: solver gateway -/

/-- Counterexample to claim C3: called on the empty graph, the solver
gateway does not fail with `InvalidGraph`; it invokes the external
capability (exactly once, with `num_reads = 10`) and returns the
sampler's answer. -/
theorem solve_problem_empty_invokes :
    (solve_problem mock_empty emptyG).2 = [⟨∅, ∅, 10⟩] ∧
    (solve_problem mock_empty emptyG).2.length = 1 ∧
    (solve_problem mock_empty emptyG).1 = ∅ :=
  ⟨rfl, rfl, rfl⟩

/-- Claim C3 as amended: `solve_problem` performs no emptiness check — for
every graph, the empty one included, it invokes the external capability
exactly once with `num_reads = 10` and passes its answer through
unchanged; no `InvalidGraph` failure exists in the code. -/
theorem solve_problem_always_forwards (sampler : Sampler) (g : Graph) :
    (solve_problem sampler g).2 = [⟨g.nodes, g.edges, num_reads⟩] ∧
    num_reads = 10 ∧
    (solve_problem sampler g).1 = sampler g.nodes g.edges num_reads :=
  ⟨rfl, rfl, rfl⟩

/-! ## Claim theorems: pipeline -/

/-- Claim C5: end-to-end on the built graph — a sampler mock returning
`{1, 4, 7}` yields printed size 3, selected-label set `{1, 4, 7}` and
unselected-label set `{2, 3, 5, 6}`; a mock returning the empty set
yields printed size 0 and all 7 nodes labeled unselected. -/
theorem pipeline_end_to_end :
    (run_main mock_147).printed = 3 ∧
    selected_set (run_main mock_147).annotated = ({1, 4, 7} : Finset ℕ) ∧
    unselected_set (run_main mock_147).annotated = ({2, 3, 5, 6} : Finset ℕ) ∧
    (run_main mock_empty).printed = 0 ∧
    selected_set (run_main mock_empty).annotated = (∅ : Finset ℕ) ∧
    unselected_set (run_main mock_empty).annotated =
      ({1, 2, 3, 4, 5, 6, 7} : Finset ℕ) ∧
    (unselected_set (run_main mock_empty).annotated).card = 7 := by
  refine ⟨by decide, by decide, by decide, by decide, by decide, by decide, by decide⟩

/-- Claim C9: the orchestrator is a straight-line composition — on every
run, whatever the sampler, the external capability is invoked exactly
once, with the built graph and the fixed sample count `num_reads = 10`
(no branching, no retry), and the annotated result is exactly the
partition of the built graph by the returned solution. -/
theorem run_main_straight_line (sampler : Sampler) :
    (run_main sampler).calls = [⟨create_graph.nodes, create_graph.edges, num_reads⟩] ∧
    (run_main sampler).calls.length = 1 ∧
    num_reads = 10 ∧
    (run_main sampler).solution = sampler create_graph.nodes create_graph.edges num_reads ∧
    (run_main sampler).annotated = annotate create_graph ((run_main sampler).solution) ∧
    (run_main sampler).printed = ((run_main sampler).solution).card :=
  ⟨rfl, rfl, rfl, rfl, rfl, rfl⟩

/-- Counterexample to claim C7: the partition step does not leave the
original Graph value unmodified — the annotation loop writes the `color`
attribute in place, so after partitioning with solution `{1, 4, 7}` the
built graph's value has changed (node 1 now carries `red`, where before
the partition it carried no color attribute). -/
theorem annotate_mutates_graph :
    (annotate create_graph {1, 4, 7}).color 1 = some Color.red ∧
    create_graph.color 1 = none ∧
    annotate create_graph ({1, 4, 7} : Finset ℕ) ≠ create_graph := by
  refine ⟨by decide, by decide, fun hEq => ?_⟩
  have h1 : (annotate create_graph ({1, 4, 7} : Finset ℕ)).color 1 = some Color.red := by
    decide
  rw [hEq] at h1
  exact absurd h1 (by decide)

/-- Claim C7 as amended: no pipeline stage after the Graph Builder changes
the graph's node set or edge set — but the partition step annotates the
graph in place, so the AnnotatedGraph is the original Graph value with
color attributes added, not a copy. -/
theorem annotate_preserves_structure (sampler : Sampler) (g : Graph) (s : Finset ℕ) :
    (annotate g s).nodes = g.nodes ∧
    (annotate g s).edges = g.edges ∧
    (run_main sampler).annotated.nodes = create_graph.nodes ∧
    (run_main sampler).annotated.edges = create_graph.edges :=
  ⟨rfl, rfl, rfl, rfl⟩

/-- Claim C8: partitioning is idempotent — applying the annotation twice
with the same graph and solution yields the same annotated graph as
applying it once. -/
theorem annotate_idempotent (g : Graph) (s : Finset ℕ) :
    annotate (annotate g s) s = annotate g s := by
  refine Graph.ext rfl rfl ?_
  funext n
  rw [annotate_color (annotate g s) s n, annotate_nodes]
  by_cases hn : n ∈ g.nodes
  · rw [if_pos hn, annotate_color g s n, if_pos hn]
  · rw [if_neg hn]

/-! ## Claim theorems: module-level placement -/

/-- Counterexample to claim C10: running the file as a script does not
execute the visualization steps to completion — the run halts with a
`NameError` for `Range1d`, which line 99 references although it is never
imported. The build, solve, print and partition steps do run first. -/
theorem script_halts_on_missing_name :
    (run_module true mock_147).halted = some (PyErr.nameError PyName.range1dCls) ∧
    (run_module true mock_147).printed = some 3 ∧
    (run_module true mock_147).annotated = some (annotate create_graph {1, 4, 7}) := by
  refine ⟨rfl, by decide, rfl⟩

/-- Claim C10 as amended: the partition and visualization code sits at
module top level while the names `G` and `S` it references are bound only
inside the `__main__` guard. Importing the file attempts to execute the
partition block and fails with a `NameError` for `G`: nothing is printed
and no AnnotatedGraph is produced. Running the file as a script executes
build, solve, print and the partition/annotation steps, then halts with a
`NameError` for `Range1d` in the visualization step (line 99 references
`Range1d`, which is never imported). -/
theorem module_guard_behavior (sampler : Sampler) :
    (run_module false sampler).printed = none ∧
    (run_module false sampler).annotated = none ∧
    (run_module false sampler).halted = some (PyErr.nameError PyName.mainG) ∧
    (run_module true sampler).printed =
      some ((sampler create_graph.nodes create_graph.edges num_reads).card) ∧
    (run_module true sampler).annotated =
      some (annotate create_graph (sampler create_graph.nodes create_graph.edges num_reads)) ∧
    (run_module true sampler).halted = some (PyErr.nameError PyName.range1dCls) :=
  ⟨rfl, rfl, rfl, rfl, rfl, rfl⟩

end GraphMapping
